import Mathlib

/-!
# KnowledgeVault backend — shallow embedding and verification

Shallow embedding of the core of `knowledge_vault_backend.py` (FastAPI +
SQLAlchemy backend for a personal knowledge base): the relational record
store (users, knowledge items, tags, conversations, chat messages), the
ingestion pipeline (`POST /api/knowledge-items`, `POST /api/upload`), the
conversational retrieval pipeline (`POST /api/chat`), item fetch
(`GET /api/knowledge-items/{id}`), and the lazy agent initialization
(`get_agents`, `KnowledgeVaultAgents.__init__`, `/health`).

Modelling conventions:
* The database is an explicit `DB` state threaded through each handler.
  Rows live in lists in insertion order; the many-to-many
  `knowledge_item_tags` association table is a list of (itemId, tagId)
  pairs, appended in the order SQLAlchemy's relationship `append` runs.
* `func.now()` server timestamps are modelled by a logical clock `DB.clock`
  that stamps each inserted row and ticks at every committing insert, so
  commit order is reflected as a strictly increasing `createdAt`.
* The external generation capability (Agno agent `.run`) is an oracle
  parameter: `Option String`, where `none` stands for every failure mode
  the Python `except Exception` catches (agents unavailable because
  `get_agents()` returned `None`, or the call raising), and
  `some response` is the raw text the agent returned.  For chat the oracle
  is a function `String → Option String` of the prompt.
* Python string operations are reproduced: `split(sep)` is
  `String.splitOn`, `strip()` is `String.trim`, `in` is substring
  containment, SQL `ilike '%pat%'` is case-insensitive substring
  containment (wildcard injection from the pattern is not modelled).
* Python truthiness of optional strings (`if item_data.content:`) is
  `optTruthy` (false for `None` and `""`).
-/

namespace KV

/-- `leadMatch n h` is true when list `n` occurs at the head of `h`. -/
def leadMatch : List Char → List Char → Bool
  | [], _ => true
  | _ :: _, [] => false
  | a :: as, b :: bs => a == b && leadMatch as bs

/-- `subMatch n h` is true when list `n` occurs contiguously anywhere in `h`. -/
def subMatch : List Char → List Char → Bool
  | n, [] => n.isEmpty
  | n, b :: bs => leadMatch n (b :: bs) || subMatch n bs

/-- Python `needle in hay` for strings: substring containment. -/
def strContains (hay needle : String) : Bool :=
  subMatch needle.toList hay.toList

/-- SQL `hay ILIKE '%needle%'`: case-insensitive substring containment. -/
def ilikeContains (hay needle : String) : Bool :=
  strContains hay.toLower needle.toLower

/-- Python `content.split(label)[1].split("\n")[0].strip()` — the backend's
label-extraction idiom for "Title:", "Summary:", "Tags:" fields. -/
def splitField (content label : String) : String :=
  ((((content.splitOn label).getD 1 "").splitOn "\n").getD 0 "").trim

/-- Python truthiness of an optional string column / field. -/
def optTruthy : Option String → Bool
  | none => false
  | some s => s ≠ ""

/-! ## Record store (SQLAlchemy models) -/

/-- Row of table `tags` (model `Tag`). -/
structure Tag where
  id : Nat
  name : String
  userId : Nat
  createdAt : Nat
deriving DecidableEq, Repr

/-- Row of table `knowledge_items` (model `KnowledgeItem`). -/
structure KnowledgeItem where
  id : Nat
  userId : Nat
  title : String
  summary : Option String
  content : Option String
  type : String
  fileUrl : Option String
  fileName : Option String
  fileSize : Option Nat
  mimeType : Option String
  objectPath : Option String
  itemMetadata : List (String × String)
  isProcessed : Bool
  processingError : Option String
  createdAt : Nat
deriving DecidableEq, Repr

/-- One entry of the `sources` list the chat endpoint builds from a matched
knowledge item (`{"id", "title", "summary", "type"}`). -/
structure Source where
  id : Nat
  title : String
  summary : Option String
  type : String
deriving DecidableEq, Repr

/-- Row of table `conversations` (model `Conversation`). -/
structure Conversation where
  id : Nat
  userId : Nat
  title : String
  createdAt : Nat
deriving DecidableEq, Repr

/-- Row of table `chat_messages` (model `ChatMessage`).  The assistant
message's JSON `metadata` column carries the sources list and the agent
name. -/
structure ChatMessage where
  id : Nat
  conversationId : Nat
  role : String
  content : String
  messageMetadata : Option (List Source × String)
  createdAt : Nat
deriving DecidableEq, Repr

/-- The relational store: each table in insertion order, the association
table `knowledge_item_tags` as (knowledge_item_id, tag_id) pairs, a fresh-id
source standing for `uuid.uuid4()`, and the logical commit clock standing
for `func.now()`. -/
structure DB where
  items : List KnowledgeItem
  tags : List Tag
  itemTags : List (Nat × Nat)
  conversations : List Conversation
  messages : List ChatMessage
  nextId : Nat
  clock : Nat
deriving DecidableEq, Repr

/-- The empty database. -/
def db0 : DB :=
  { items := []
    tags := []
    itemTags := []
    conversations := []
    messages := []
    nextId := 0
    clock := 0 }

/-! ## Serialization (`serialize_knowledge_item`) -/

/-- The tag-name list `[tag.name for tag in item.tags]` read through the
association table, in association order (duplicated associations yield
duplicated names). -/
def itemTagNames (db : DB) (itemId : Nat) : List String :=
  (db.itemTags.filter (fun p => p.1 == itemId)).filterMap
    (fun p => (db.tags.find? (fun t => t.id == p.2)).map Tag.name)

/-- API response shape produced by `serialize_knowledge_item`. -/
structure SerializedItem where
  id : Nat
  title : String
  summary : Option String
  content : Option String
  type : String
  fileUrl : Option String
  fileName : Option String
  fileSize : Option Nat
  mimeType : Option String
  objectPath : Option String
  itemMetadata : List (String × String)
  isProcessed : Bool
  processingError : Option String
  createdAt : Nat
  tags : List String
deriving DecidableEq, Repr

/-- `serialize_knowledge_item(item, include_tags=True)`. -/
def serialize_knowledge_item (db : DB) (item : KnowledgeItem) : SerializedItem :=
  { id := item.id, title := item.title, summary := item.summary,
    content := item.content, type := item.type, fileUrl := item.fileUrl,
    fileName := item.fileName, fileSize := item.fileSize,
    mimeType := item.mimeType, objectPath := item.objectPath,
    itemMetadata := item.itemMetadata, isProcessed := item.isProcessed,
    processingError := item.processingError, createdAt := item.createdAt,
    tags := itemTagNames db item.id }

/-! ## `GET /api/knowledge-items/{item_id}` -/

/-- `get_knowledge_item`: single query filtered by both id and owner; a miss
for either reason raises the same `404 "Knowledge item not found"`. -/
def get_knowledge_item (db : DB) (userId itemId : Nat) :
    Except (Nat × String) SerializedItem :=
  match db.items.find? (fun i => i.id == itemId && i.userId == userId) with
  | none => .error (404, "Knowledge item not found")
  | some item => .ok (serialize_knowledge_item db item)

/-! ## Tag get-or-create (shared by `create_knowledge_item` and `upload_file`)

The Python body is a check-then-insert:
`existing = db.query(Tag).filter(name == tag_name, user_id == user).first()`
followed by either `db_item.tags.append(existing)` or create + commit +
append.  To expose the interleaving the two halves are separate functions;
`getOrCreateAttach` is the serial (single-request) composition. -/

/-- The read half: `db.query(Tag).filter(Tag.name == tag_name,
Tag.user_id == user.id).first()`. -/
def tagCheck (db : DB) (userId : Nat) (name : String) : Option Tag :=
  db.tags.find? (fun t => t.name == name && t.userId == userId)

/-- The write half, driven by what the caller's own check returned:
attach the found tag, or insert a new `Tag` row and attach it. -/
def tagInsertPhase (db : DB) (userId itemId : Nat) (name : String)
    (checkResult : Option Tag) : DB :=
  match checkResult with
  | some t => { db with itemTags := db.itemTags ++ [(itemId, t.id)] }
  | none =>
    let nt : Tag := { id := db.nextId, name := name, userId := userId,
                      createdAt := db.clock }
    { db with
      tags := db.tags ++ [nt]
      itemTags := db.itemTags ++ [(itemId, nt.id)]
      nextId := db.nextId + 1
      clock := db.clock + 1 }

/-- One request's get-or-create-and-attach for a single tag name. -/
def getOrCreateAttach (db : DB) (userId itemId : Nat) (name : String) : DB :=
  tagInsertPhase db userId itemId name (tagCheck db userId name)

/-- Two concurrent requests running the same get-or-create for the same
(user, name), interleaved check₁-check₂-insert₁-insert₂ — the schedule the
store permits because the Python code has no transaction or unique
constraint around the check-then-insert. -/
def racedGetOrCreate (db : DB) (userId item1 item2 : Nat) (name : String) : DB :=
  let c1 := tagCheck db userId name
  let c2 := tagCheck db userId name
  let db1 := tagInsertPhase db userId item1 name c1
  tagInsertPhase db1 userId item2 name c2

/-- Number of `tags` rows with the given owner and name. -/
def countUserTags (db : DB) (userId : Nat) (name : String) : Nat :=
  (db.tags.filter (fun t => t.name == name && t.userId == userId)).length

/-! ## `POST /api/knowledge-items` (`create_knowledge_item`) -/

/-- The enrichment step of manual item creation: when the supplied content
is truthy the document-processor agent is consulted; on any failure
(`enrich = none`) the exception is caught and nothing changes; on success a
"Summary:" field, if present, backfills a falsy summary. -/
def backfillSummary (summary content : Option String) (enrich : Option String) :
    Option String :=
  if optTruthy content then
    match enrich with
    | none => summary
    | some rc =>
      if strContains rc "Summary:" then
        if optTruthy summary then summary
        else some (splitField rc "Summary:")
      else summary
  else summary

/-- `create_knowledge_item`: best-effort summary backfill, insert the row
with `is_processed=True`, then run the get-or-create-attach loop over the
request's tag list (in request order, without deduplication). -/
def create_knowledge_item (db : DB) (userId : Nat) (title : String)
    (summary content : Option String) (ty : String) (tags : List String)
    (metadata : List (String × String)) (enrich : Option String) :
    DB × KnowledgeItem :=
  let summary := backfillSummary summary content enrich
  let item : KnowledgeItem :=
    { id := db.nextId
      userId := userId
      title := title
      summary := summary
      content := content
      type := ty
      fileUrl := none
      fileName := none
      fileSize := none
      mimeType := none
      objectPath := none
      itemMetadata := metadata
      isProcessed := true
      processingError := none
      createdAt := db.clock }
  let db1 : DB :=
    { db with
      items := db.items ++ [item]
      nextId := db.nextId + 1
      clock := db.clock + 1 }
  let db2 := tags.foldl (fun d n => getOrCreateAttach d userId item.id n) db1
  (db2, item)

/-! ## `POST /api/upload` (`upload_file`) -/

/-- Parsing of a successful document-processor response in `upload_file`:
defaults first (`title = file.filename`, `summary = "File processed by AI
agent"`, `tags = ["uploaded"]`), then each of "Title:", "Summary:", "Tags:"
overrides its field when the label occurs in the response. -/
def parseUploadResponse (filename rc : String) : String × String × List String :=
  let title :=
    if strContains rc "Title:" then
      let t := splitField rc "Title:"
      if t = "" then filename else t
    else filename
  let summary :=
    if strContains rc "Summary:" then splitField rc "Summary:"
    else "File processed by AI agent"
  let tags :=
    if strContains rc "Tags:" then
      (((splitField rc "Tags:").splitOn ",").map String.trim).filter (fun s => s ≠ "")
    else ["uploaded"]
  (title, summary, tags)

/-- `upload_file`: the file is saved under a fresh path (`savedPath`), text
files are decoded to `rawText`, the document-processor agent is consulted
(`enrich = none` for both "agents unavailable" and a raised exception, in
which case `title = filename`, `summary = "File uploaded successfully"`,
`tags = ["uploaded"]`), the row is inserted with `is_processed=True`, and
the suggested tags are attached via get-or-create. -/
def upload_file (db : DB) (userId : Nat) (filename contentType : String)
    (fileBytesLen : Nat) (rawText savedPath : String) (enrich : Option String) :
    DB × KnowledgeItem :=
  let fileContent := if contentType.startsWith "text/" then rawText else ""
  let parsed :=
    match enrich with
    | none => (filename, "File uploaded successfully", ["uploaded"])
    | some rc => parseUploadResponse filename rc
  let item : KnowledgeItem :=
    { id := db.nextId
      userId := userId
      title := parsed.1
      summary := some parsed.2.1
      content := some fileContent
      type := "document"
      fileUrl := some savedPath
      fileName := some filename
      fileSize := some fileBytesLen
      mimeType := some contentType
      objectPath := none
      itemMetadata := [("original_filename", filename)]
      isProcessed := true
      processingError := none
      createdAt := db.clock }
  let db1 : DB :=
    { db with
      items := db.items ++ [item]
      nextId := db.nextId + 1
      clock := db.clock + 1 }
  let db2 := parsed.2.2.foldl (fun d n => getOrCreateAttach d userId item.id n) db1
  (db2, item)

/-! ## `POST /api/chat` -/

/-- Create a fresh `Conversation` row titled `f"Chat {now}"`. -/
def createConversation (db : DB) (userId : Nat) (nowStr : String) :
    DB × Conversation :=
  let cv : Conversation :=
    { id := db.nextId
      userId := userId
      title := "Chat " ++ nowStr
      createdAt := db.clock }
  ({ db with
     conversations := db.conversations ++ [cv]
     nextId := db.nextId + 1
     clock := db.clock + 1 }, cv)

/-- Conversation resolution: reuse a supplied id only when it resolves to a
conversation owned by the requester; otherwise create a new one. -/
def resolveConversation (db : DB) (userId : Nat) (cid : Option Nat)
    (nowStr : String) : DB × Conversation :=
  match cid with
  | some c =>
    match db.conversations.find? (fun cv => cv.id == c && cv.userId == userId) with
    | some cv => (db, cv)
    | none => createConversation db userId nowStr
  | none => createConversation db userId nowStr

/-- The knowledge-base query of the chat endpoint: the requester's items
whose content matches `ILIKE '%message[:50]%'` (a NULL content column never
matches), capped at 5 in store order. -/
def searchKnowledge (items : List KnowledgeItem) (userId : Nat) (message : String) :
    List KnowledgeItem :=
  (items.filter (fun i =>
    i.userId == userId &&
      (match i.content with
       | none => false
       | some c => ilikeContains c (message.take 50)))).take 5

/-- Rendering of an optional column in a Python f-string (`None` prints as
`"None"`). -/
def renderOptStr : Option String → String
  | none => "None"
  | some s => s

/-- One block of the chat context: `f"[{title}]\n{summary}\n{content[:300]}..."`.
Matched items always have non-NULL content (the ILIKE filter), so the
content slice reads the stored string. -/
def contextEntry (i : KnowledgeItem) : String :=
  "[" ++ i.title ++ "]\n" ++ renderOptStr i.summary ++ "\n"
    ++ ((i.content.getD "").take 300) ++ "..."

/-- `context`: empty when no match, else the matches' blocks joined by a
blank line. -/
def buildContext (matched : List KnowledgeItem) : String :=
  if matched = [] then ""
  else String.intercalate "\n\n" (matched.map contextEntry)

/-- The sources entry built from a matched item. -/
def mkSource (i : KnowledgeItem) : Source :=
  { id := i.id, title := i.title, summary := i.summary, type := i.type }

/-- Response body of `POST /api/chat` (`ChatResponse`). -/
structure ChatResponseBody where
  message : String
  conversation_id : Nat
  sources : List Source
  agent_used : String
deriving DecidableEq, Repr

/-- The `sources` list the chat endpoint returns (empty when the caller
opted out of the knowledge base). -/
def chatSources (items : List KnowledgeItem) (userId : Nat) (message : String)
    (use_knowledge_base : Bool) : List Source :=
  if use_knowledge_base then (searchKnowledge items userId message).map mkSource
  else []

/-- The context block passed to the conversation agent (empty when the
caller opted out of the knowledge base). -/
def chatContext (items : List KnowledgeItem) (userId : Nat) (message : String)
    (use_knowledge_base : Bool) : String :=
  if use_knowledge_base then buildContext (searchKnowledge items userId message)
  else ""

/-- The chat prompt `f"User question: {message}\n\nKnowledge base
context:\n{context}\n\nProvide a helpful response..."`. -/
def chatPrompt (context message : String) : String :=
  "User question: " ++ message
    ++ "\n\nKnowledge base context:\n" ++ context
    ++ "\n\nProvide a helpful response based on the available context."

/-- The fixed apology substituted when the generation call fails. -/
def fallbackReply : String :=
  "I'm sorry, I'm having trouble processing your request right now. Please try again."

/-- The assistant text: the agent's reply, or the apology on any caught
failure. -/
def chatReply (gen : String → Option String) (prompt : String) : String :=
  match gen prompt with
  | some c => c
  | none => fallbackReply

/-- `chat`: resolve the conversation, commit the user turn, optionally query
the knowledge base, call the conversation agent (`gen` maps the prompt to
`none` on any caught failure, in which case a fixed apology is substituted),
commit the assistant turn, and answer. -/
def chat (db : DB) (userId : Nat) (message : String) (cid : Option Nat)
    (use_knowledge_base : Bool) (gen : String → Option String)
    (nowStr : String) : DB × ChatResponseBody :=
  let r := resolveConversation db userId cid nowStr
  let db1 := r.1
  let conv := r.2
  let userMsg : ChatMessage :=
    { id := db1.nextId
      conversationId := conv.id
      role := "user"
      content := message
      messageMetadata := none
      createdAt := db1.clock }
  let db2 : DB :=
    { db1 with
      messages := db1.messages ++ [userMsg]
      nextId := db1.nextId + 1
      clock := db1.clock + 1 }
  let relevantItems := chatSources db2.items userId message use_knowledge_base
  let context := chatContext db2.items userId message use_knowledge_base
  let assistantContent := chatReply gen (chatPrompt context message)
  let asstMsg : ChatMessage :=
    { id := db2.nextId
      conversationId := conv.id
      role := "assistant"
      content := assistantContent
      messageMetadata := some (relevantItems, "ConversationAgent")
      createdAt := db2.clock }
  let db3 : DB :=
    { db2 with
      messages := db2.messages ++ [asstMsg]
      nextId := db2.nextId + 1
      clock := db2.clock + 1 }
  (db3, { message := assistantContent
          conversation_id := conv.id
          sources := relevantItems
          agent_used := "ConversationAgent" })

/-! ## Agent system bootstrap (`KnowledgeVaultAgents`, `get_agents`, startup) -/

/-- A configured Agno agent: a hosted model id, a name and an instruction
persona. -/
structure AgentConfig where
  modelId : String
  name : String
  instructions : String
deriving DecidableEq, Repr

/-- The four agents `_setup_agents` builds. -/
structure KnowledgeVaultAgents where
  document_processor : AgentConfig
  search_agent : AgentConfig
  conversation_agent : AgentConfig
  summarization_agent : AgentConfig
deriving DecidableEq, Repr

/-- `KnowledgeVaultAgents._setup_agents`. -/
def setupAgents : KnowledgeVaultAgents :=
  { document_processor :=
      { modelId := "gpt-4o", name := "DocumentProcessor"
        instructions := "You are a document analysis expert. Extract titles, summaries, key concepts, and suggest relevant tags. Provide structured responses." }
    search_agent :=
      { modelId := "gpt-4o", name := "SearchAgent"
        instructions := "You are a search specialist. Help find relevant information and provide context-aware search results." }
    conversation_agent :=
      { modelId := "gpt-4o", name := "ConversationAgent"
        instructions := "You are a helpful AI assistant for KnowledgeVault. Answer questions using the provided knowledge base context. Be conversational and cite sources when relevant." }
    summarization_agent :=
      { modelId := "gpt-4o", name := "SummarizationAgent"
        instructions := "You are a content summarization expert. Create concise, accurate summaries and extract key insights." } }

/-- `KnowledgeVaultAgents.__init__`: raises `ValueError` when the key is
falsy (the empty string is the default when `OPENAI_API_KEY` is unset),
otherwise builds the four agents. -/
def initAgents (openai_api_key : String) : Except String KnowledgeVaultAgents :=
  if openai_api_key = "" then .error "OPENAI_API_KEY is required for agent system"
  else .ok setupAgents

/-- `get_agents`: lazy initialization of the module-global `agents`.  The
constructor is attempted only when the global is still `None` and the key is
truthy; any exception is caught and leaves the global `None`. -/
def get_agents (openai_api_key : String) (agents : Option KnowledgeVaultAgents) :
    Option KnowledgeVaultAgents :=
  match agents with
  | some a => some a
  | none =>
    if openai_api_key ≠ "" then (initAgents openai_api_key).toOption
    else none

/-- Process-global state after module import. -/
structure ServerState where
  openai_api_key : String
  agents : Option KnowledgeVaultAgents
deriving DecidableEq, Repr

/-- Process start, modelled from the module top level (settings load, engine
and app construction, `Base.metadata.create_all`, upload-dir creation, and
the global `agents = None` at line 320): no step inspects
`openai_api_key`, so startup succeeds for every key, including the empty
one; the only code that raises on a missing key is
`KnowledgeVaultAgents.__init__`, which runs lazily inside `get_agents` under
an exception handler. -/
def processStart (openai_api_key : String) : Except String ServerState :=
  .ok { openai_api_key := openai_api_key, agents := none }

/-- Response of `GET /health`: status, version, `agents_available`,
database. -/
def health_check (st : ServerState) : String × String × Bool × String :=
  ("healthy", "2.0.0", (get_agents st.openai_api_key st.agents).isSome, "connected")

/-! ## Store well-formedness

Invariants every reachable store satisfies because ids are generated
freshly (`uuid.uuid4()`, modelled by `nextId`): every stored id is below
`nextId`, association-table entries reference stored ids, and tag ids are
pairwise distinct. -/

/-- Well-formedness of the record store. -/
def DBWF (db : DB) : Prop :=
  (db.tags.map Tag.id).Nodup ∧
  (∀ t ∈ db.tags, t.id < db.nextId) ∧
  (∀ p ∈ db.itemTags, p.1 < db.nextId ∧ p.2 < db.nextId) ∧
  (∀ i ∈ db.items, i.id < db.nextId)

instance (db : DB) : Decidable (DBWF db) := by
  unfold DBWF; infer_instance

/-- A knowledge item owned by user 1, used as a concrete fixture. -/
def itemW : KnowledgeItem :=
  { id := 1
    userId := 1
    title := "private note"
    summary := none
    content := some "secret"
    type := "text"
    fileUrl := none
    fileName := none
    fileSize := none
    mimeType := none
    objectPath := none
    itemMetadata := []
    isProcessed := true
    processingError := none
    createdAt := 0 }

/-- A store holding one item of user 1, used as a concrete fixture. -/
def dbW : DB :=
  { items := [itemW]
    tags := []
    itemTags := []
    conversations := []
    messages := []
    nextId := 2
    clock := 1 }

/-! ## Helper lemmas about the tag get-or-create-attach step -/

/-- Appending a fresh id keeps a duplicate-free id list duplicate-free. -/
theorem nodup_append_fresh {l : List Nat} {k : Nat}
    (hnd : l.Nodup) (hlt : ∀ x ∈ l, x < k) : (l ++ [k]).Nodup := by
  induction l with
  | nil => simp
  | cons a t ih =>
    rw [List.cons_append, List.nodup_cons]
    refine ⟨?_, ih (List.nodup_cons.mp hnd).2 (fun x hx => hlt x (by simp [hx]))⟩
    intro hmem
    rcases List.mem_append.mp hmem with hmem | hmem
    · exact (List.nodup_cons.mp hnd).1 hmem
    · have := hlt a (by simp)
      simp only [List.mem_singleton] at hmem
      omega

/-- A tag whose id is not the appended tag's id is looked up unchanged. -/
theorem find_tag_append_fresh (tags : List Tag) (nt : Tag) (k : Nat)
    (h : k ≠ nt.id) :
    (tags ++ [nt]).find? (fun t => t.id == k) = tags.find? (fun t => t.id == k) := by
  rw [List.find?_append]
  rcases hf : tags.find? (fun t => t.id == k) with _ | t
  · simp [List.find?_singleton, Ne.symm h]
  · simp [hf]

/-- With duplicate-free tag ids, lookup by a stored tag's id returns that
tag. -/
theorem find_tag_by_id {l : List Tag} {t : Tag}
    (hnd : (l.map Tag.id).Nodup) (ht : t ∈ l) :
    l.find? (fun x => x.id == t.id) = some t := by
  induction l with
  | nil => cases ht
  | cons a l ih =>
    rw [List.map_cons, List.nodup_cons] at hnd
    rcases List.mem_cons.mp ht with rfl | hmem
    · exact List.find?_cons_of_pos _ (by simp)
    · have hne : (a.id == t.id) = false := by
        rw [beq_eq_false_iff_ne]
        intro he
        exact hnd.1 (he ▸ List.mem_map_of_mem Tag.id hmem)
      rw [List.find?_cons_of_neg _ (by simp [hne])]
      exact ih hnd.2 hmem

/-- The get-or-create-attach step never touches the `knowledge_items`
table. -/
theorem goca_items (db : DB) (u i : Nat) (n : String) :
    (getOrCreateAttach db u i n).items = db.items := by
  unfold getOrCreateAttach tagInsertPhase
  rcases tagCheck db u n with _ | t <;> rfl

/-- The get-or-create-attach step never lowers the fresh-id source. -/
theorem goca_nextId_le (db : DB) (u i : Nat) (n : String) :
    db.nextId ≤ (getOrCreateAttach db u i n).nextId := by
  unfold getOrCreateAttach tagInsertPhase
  rcases tagCheck db u n with _ | t
  · exact Nat.le_succ _
  · exact Nat.le_refl _

/-- The attach loop body never touches the `knowledge_items` table. -/
theorem foldl_goca_items (names : List String) (db : DB) (u i : Nat) :
    (names.foldl (fun d n => getOrCreateAttach d u i n) db).items = db.items := by
  induction names generalizing db with
  | nil => rfl
  | cons a t ih => rw [List.foldl_cons, ih, goca_items]

/-- An item with no association rows serializes with no tag names. -/
theorem itemTagNames_fresh (db : DB) (itemId : Nat)
    (h : ∀ p ∈ db.itemTags, p.1 ≠ itemId) :
    itemTagNames db itemId = [] := by
  unfold itemTagNames
  have hf : db.itemTags.filter (fun p => p.1 == itemId) = [] := by
    rw [List.filter_eq_nil_iff]
    intro p hp
    simp [h p hp]
  rw [hf]
  rfl

/-- One get-or-create-attach appends exactly the requested name to the
item's serialized tag list. -/
theorem itemTagNames_goca (db : DB) (u itemId : Nat) (name : String)
    (hnd : (db.tags.map Tag.id).Nodup)
    (htags : ∀ t ∈ db.tags, t.id < db.nextId)
    (hpairs : ∀ p ∈ db.itemTags, p.2 < db.nextId) :
    itemTagNames (getOrCreateAttach db u itemId name) itemId
      = itemTagNames db itemId ++ [name] := by
  unfold getOrCreateAttach
  rcases h : tagCheck db u name with _ | t
  · simp only [tagInsertPhase, itemTagNames, List.filter_append, List.filterMap_append]
    congr 1
    · apply List.filterMap_congr
      intro p hp
      have hlt : p.2 < db.nextId := hpairs p (List.mem_of_mem_filter hp)
      rw [find_tag_append_fresh _ _ _ (Nat.ne_of_lt hlt)]
    · have hnone : db.tags.find? (fun x => x.id == db.nextId) = none := by
        rw [List.find?_eq_none]
        intro x hx
        simp [Nat.ne_of_lt (htags x hx)]
      simp [List.find?_append, hnone, List.find?_singleton]
  · have htmem : t ∈ db.tags := List.mem_of_find?_eq_some h
    have hname : t.name = name := by
      have hp := List.find?_some h
      simp only [Bool.and_eq_true, beq_iff_eq] at hp
      exact hp.1
    simp only [tagInsertPhase, itemTagNames, List.filter_append, List.filterMap_append]
    congr 1
    simp [find_tag_by_id hnd htmem, hname]

/-- Get-or-create-attach preserves store well-formedness when the attached
item's id is already allocated. -/
theorem goca_DBWF (db : DB) (u itemId : Nat) (name : String)
    (hwf : DBWF db) (hi : itemId < db.nextId) :
    DBWF (getOrCreateAttach db u itemId name) := by
  obtain ⟨hnd, htags, hpairs, hitems⟩ := hwf
  unfold getOrCreateAttach
  rcases h : tagCheck db u name with _ | t
  · refine ⟨?_, ?_, ?_, ?_⟩
    · simp only [tagInsertPhase, List.map_append, List.map_cons, List.map_nil]
      exact nodup_append_fresh hnd (fun x hx => by
        obtain ⟨tg, htg, rfl⟩ := List.mem_map.mp hx
        exact htags tg htg)
    · intro tg htg
      rcases List.mem_append.mp htg with hm | hm
      · exact Nat.lt_succ_of_lt (htags tg hm)
      · simp only [List.mem_singleton] at hm
        subst hm
        exact Nat.lt_succ_self _
    · intro p hp
      rcases List.mem_append.mp hp with hm | hm
      · exact ⟨Nat.lt_succ_of_lt (hpairs p hm).1, Nat.lt_succ_of_lt (hpairs p hm).2⟩
      · simp only [List.mem_singleton] at hm
        subst hm
        exact ⟨Nat.lt_succ_of_lt hi, Nat.lt_succ_self _⟩
    · intro i hi2
      exact Nat.lt_succ_of_lt (hitems i hi2)
  · refine ⟨hnd, htags, ?_, hitems⟩
    intro p hp
    rcases List.mem_append.mp hp with hm | hm
    · exact hpairs p hm
    · simp only [List.mem_singleton] at hm
      subst hm
      exact ⟨hi, htags t (List.mem_of_find?_eq_some h)⟩

/-- The attach loop appends exactly the requested names, in request order,
to the item's serialized tag list. -/
theorem foldl_goca_tagNames (names : List String) (db : DB) (u itemId : Nat)
    (hwf : DBWF db) (hi : itemId < db.nextId) :
    itemTagNames (names.foldl (fun d n => getOrCreateAttach d u itemId n) db) itemId
      = itemTagNames db itemId ++ names := by
  induction names generalizing db with
  | nil => simp
  | cons a t ih =>
    rw [List.foldl_cons,
      ih _ (goca_DBWF db u itemId a hwf hi)
        (Nat.lt_of_lt_of_le hi (goca_nextId_le db u itemId a)),
      itemTagNames_goca db u itemId a hwf.1 hwf.2.1 (fun p hp => (hwf.2.2.1 p hp).2),
      List.append_assoc, List.singleton_append]

/-- Inserting a freshly allocated item row preserves store
well-formedness. -/
theorem DBWF_insert_item (db : DB) (item : KnowledgeItem)
    (hwf : DBWF db) (hid : item.id = db.nextId) :
    DBWF { db with
           items := db.items ++ [item]
           nextId := db.nextId + 1
           clock := db.clock + 1 } := by
  obtain ⟨hnd, htags, hpairs, hitems⟩ := hwf
  refine ⟨hnd, fun t ht => Nat.lt_succ_of_lt (htags t ht), ?_, ?_⟩
  · intro p hp
    exact ⟨Nat.lt_succ_of_lt (hpairs p hp).1, Nat.lt_succ_of_lt (hpairs p hp).2⟩
  · intro i hi
    rcases List.mem_append.mp hi with hm | hm
    · exact Nat.lt_succ_of_lt (hitems i hm)
    · simp only [List.mem_singleton] at hm
      subst hm
      rw [hid]
      exact Nat.lt_succ_self _

/-- Conversation resolution never touches the `chat_messages` table. -/
theorem resolveConversation_messages (db : DB) (u : Nat) (cid : Option Nat)
    (nowStr : String) :
    (resolveConversation db u cid nowStr).1.messages = db.messages := by
  unfold resolveConversation createConversation
  rcases cid with _ | c
  · rfl
  · rcases h : db.conversations.find? (fun cv => cv.id == c && cv.userId == u) with _ | cv
      <;> simp [h]

/-- Conversation resolution never touches the `knowledge_items` table. -/
theorem resolveConversation_items (db : DB) (u : Nat) (cid : Option Nat)
    (nowStr : String) :
    (resolveConversation db u cid nowStr).1.items = db.items := by
  unfold resolveConversation createConversation
  rcases cid with _ | c
  · rfl
  · rcases h : db.conversations.find? (fun cv => cv.id == c && cv.userId == u) with _ | cv
      <;> simp [h]

/-- Fetching a freshly inserted row after the attach loop: the fetch hits
the new row, and its serialized tag list is exactly the attached names. -/
theorem get_created (db : DB) (item : KnowledgeItem) (names : List String)
    (u : Nat) (hwf : DBWF db) (hid : item.id = db.nextId)
    (huser : item.userId = u) :
    ∃ st : SerializedItem,
      get_knowledge_item
          (names.foldl (fun d n => getOrCreateAttach d u item.id n)
            { db with
              items := db.items ++ [item]
              nextId := db.nextId + 1
              clock := db.clock + 1 }) u item.id
        = Except.ok st
      ∧ st.tags = names := by
  have hwf1 := DBWF_insert_item db item hwf hid
  have hi1 : item.id < db.nextId + 1 := by rw [hid]; exact Nat.lt_succ_self _
  refine ⟨serialize_knowledge_item
      (names.foldl (fun d n => getOrCreateAttach d u item.id n)
        { db with
          items := db.items ++ [item]
          nextId := db.nextId + 1
          clock := db.clock + 1 }) item, ?_, ?_⟩
  · unfold get_knowledge_item
    have hfind :
        ((names.foldl (fun d n => getOrCreateAttach d u item.id n)
          { db with
            items := db.items ++ [item]
            nextId := db.nextId + 1
            clock := db.clock + 1 }).items.find?
          (fun i => i.id == item.id && i.userId == u)) = some item := by
      rw [foldl_goca_items]
      show ((db.items ++ [item]).find? (fun i => i.id == item.id && i.userId == u))
        = some item
      rw [List.find?_append]
      have h1 : db.items.find? (fun i => i.id == item.id && i.userId == u) = none := by
        rw [List.find?_eq_none]
        intro x hx
        have hlt := hwf.2.2.2 x hx
        simp only [Bool.and_eq_true, beq_iff_eq, not_and]
        intro he
        exfalso
        rw [he, hid] at hlt
        exact Nat.lt_irrefl _ hlt
      rw [h1]
      simp [List.find?_singleton, huser]
    rw [hfind]
  · simp only [serialize_knowledge_item]
    rw [foldl_goca_tagNames names _ u item.id hwf1 hi1, itemTagNames_fresh]
    · rw [List.nil_append]
    · intro p hp
      have hlt := (hwf.2.2.1 p hp).1
      rw [hid]
      exact Nat.ne_of_lt hlt

/-! ## Claim theorems -/

/-- C1: for every upload request and every manual knowledge-item creation
request that completes, the created `KnowledgeItem` row has
`isProcessed = true` — for every enrichment outcome (`enrichU`, `enrichC`
range over success, failure and unavailability) — and the row is stored. -/
theorem created_item_isProcessed (db : DB) (u : Nat)
    (filename contentType : String) (bytesLen : Nat) (rawText savedPath : String)
    (enrichU : Option String) (title : String) (s c : Option String)
    (ty : String) (tags : List String) (md : List (String × String))
    (enrichC : Option String) :
    (upload_file db u filename contentType bytesLen rawText savedPath enrichU).2.isProcessed
        = true
    ∧ (upload_file db u filename contentType bytesLen rawText savedPath enrichU).2
        ∈ (upload_file db u filename contentType bytesLen rawText savedPath enrichU).1.items
    ∧ (create_knowledge_item db u title s c ty tags md enrichC).2.isProcessed = true
    ∧ (create_knowledge_item db u title s c ty tags md enrichC).2
        ∈ (create_knowledge_item db u title s c ty tags md enrichC).1.items := by
  refine ⟨rfl, ?_, rfl, ?_⟩
  · show (upload_file db u filename contentType bytesLen rawText savedPath enrichU).2
      ∈ (upload_file db u filename contentType bytesLen rawText savedPath enrichU).1.items
    simp only [upload_file]
    rw [foldl_goca_items]
    simp
  · show (create_knowledge_item db u title s c ty tags md enrichC).2
      ∈ (create_knowledge_item db u title s c ty tags md enrichC).1.items
    simp only [create_knowledge_item]
    rw [foldl_goca_items]
    simp

/-- C3: for every upload of a `text/plain` file whose enrichment call fails
or whose generation capability is unavailable (both collapse to
`enrich = none`), the created item's title is the original filename, its
summary the fixed fallback string, its serialized tag list exactly
`["uploaded"]`, and the row is stored (the request completes — the model's
upload path is total, so the failure is never surfaced). -/
theorem upload_enrichment_failure_defaults (db : DB) (u : Nat)
    (filename : String) (bytesLen : Nat) (rawText savedPath : String)
    (hwf : DBWF db) :
    (upload_file db u filename "text/plain" bytesLen rawText savedPath none).2.title
        = filename
    ∧ (upload_file db u filename "text/plain" bytesLen rawText savedPath none).2.summary
        = some "File uploaded successfully"
    ∧ itemTagNames (upload_file db u filename "text/plain" bytesLen rawText savedPath none).1
        (upload_file db u filename "text/plain" bytesLen rawText savedPath none).2.id
      = ["uploaded"]
    ∧ (upload_file db u filename "text/plain" bytesLen rawText savedPath none).2
        ∈ (upload_file db u filename "text/plain" bytesLen rawText savedPath none).1.items := by
  refine ⟨rfl, rfl, ?_, ?_⟩
  · show itemTagNames
        (upload_file db u filename "text/plain" bytesLen rawText savedPath none).1
        (upload_file db u filename "text/plain" bytesLen rawText savedPath none).2.id
      = ["uploaded"]
    simp only [upload_file]
    rw [foldl_goca_tagNames _ _ _ _ (DBWF_insert_item db _ hwf rfl) (Nat.lt_succ_self _),
      itemTagNames_fresh]
    · rw [List.nil_append]
    · intro p hp
      exact Nat.ne_of_lt (hwf.2.2.1 p hp).1
  · show (upload_file db u filename "text/plain" bytesLen rawText savedPath none).2
      ∈ (upload_file db u filename "text/plain" bytesLen rawText savedPath none).1.items
    simp only [upload_file]
    rw [foldl_goca_items]
    simp

/-- C3 witness: the concrete scenario on the empty store. -/
theorem upload_enrichment_failure_defaults_witness :
    DBWF db0
    ∧ ((upload_file db0 0 "notes.txt" "text/plain" 5 "hello" "/tmp/uploads/u_notes.txt" none).2.title
        = "notes.txt"
    ∧ (upload_file db0 0 "notes.txt" "text/plain" 5 "hello" "/tmp/uploads/u_notes.txt" none).2.summary
        = some "File uploaded successfully"
    ∧ itemTagNames (upload_file db0 0 "notes.txt" "text/plain" 5 "hello" "/tmp/uploads/u_notes.txt" none).1
        (upload_file db0 0 "notes.txt" "text/plain" 5 "hello" "/tmp/uploads/u_notes.txt" none).2.id
      = ["uploaded"]
    ∧ (upload_file db0 0 "notes.txt" "text/plain" 5 "hello" "/tmp/uploads/u_notes.txt" none).2
        ∈ (upload_file db0 0 "notes.txt" "text/plain" 5 "hello" "/tmp/uploads/u_notes.txt" none).1.items) :=
  ⟨by decide,
   upload_enrichment_failure_defaults db0 0 "notes.txt" 5 "hello"
     "/tmp/uploads/u_notes.txt" (by decide)⟩

/-- C4: the bare check-then-insert get-or-create is not race-safe.  Under
the interleaving check₁-check₂-insert₁-insert₂ (both callers' reads run
before either write), two concurrent callers for the same (user, name) pair
on the empty store leave TWO `Tag` rows with that user and name, and attach
their items to two different rows — the claim's "exactly one Tag row"
fails.  The serial composition of the same two operations leaves exactly
one row, confirming the interleaving is what breaks the property. -/
theorem tag_get_or_create_race :
    countUserTags (racedGetOrCreate db0 0 10 11 "shared") 0 "shared" = 2
    ∧ (racedGetOrCreate db0 0 10 11 "shared").itemTags = [(10, 0), (11, 1)]
    ∧ countUserTags
        (getOrCreateAttach (getOrCreateAttach db0 0 10 "shared") 0 11 "shared")
        0 "shared" = 1 := by
  decide

/-- C5 counterexample: with the required external generation credential
missing (`OPENAI_API_KEY` unset, i.e. the empty string), the process does
NOT refuse to start — `processStart` returns no error. -/
theorem missing_key_process_still_starts :
    ¬ ∃ err, processStart "" = Except.error err := by
  rintro ⟨err, h⟩
  simp [processStart] at h

/-- C5 amended: a missing generation credential is not fatal at process
start.  The process starts for every key (including the empty one) with the
agent global unset; the only credential check lives in the lazily invoked
constructor (`initAgents`), whose failure is caught so `get_agents` yields
`none`, and `/health` then reports `agents_available = false`. -/
theorem lazy_agent_degradation :
    (∀ key, processStart key = Except.ok { openai_api_key := key, agents := none })
    ∧ initAgents "" = Except.error "OPENAI_API_KEY is required for agent system"
    ∧ get_agents "" none = none
    ∧ (health_check { openai_api_key := "", agents := none }).2.2.1 = false := by
  refine ⟨fun key => rfl, rfl, rfl, rfl⟩

/-- C8: a `GET /api/knowledge-items/{id}` request for an item that does not
exist, or that is owned by a user other than the requester, produces the
very same not-found response (status 404, detail "Knowledge item not
found") in both cases — the handler runs one query filtered by id AND
owner, so no forbidden response exists and ownership is never leaked. -/
theorem get_item_uniform_not_found (db : DB) (u itemId : Nat)
    (h : ∀ i ∈ db.items, i.id = itemId → i.userId ≠ u) :
    get_knowledge_item db u itemId
      = Except.error (404, "Knowledge item not found") := by
  unfold get_knowledge_item
  have hnone : db.items.find? (fun i => i.id == itemId && i.userId == u) = none := by
    rw [List.find?_eq_none]
    intro i hi
    simp only [Bool.and_eq_true, beq_iff_eq, not_and]
    exact h i hi
  rw [hnone]

/-- C8 witness: requesting user 1's item as user 0 yields the 404. -/
theorem get_item_uniform_not_found_witness :
    (∀ i ∈ dbW.items, i.id = 1 → i.userId ≠ 0)
    ∧ get_knowledge_item dbW 0 1 = Except.error (404, "Knowledge item not found") :=
  ⟨by decide, get_item_uniform_not_found dbW 0 1 (by decide)⟩

/-- C10: a creation request whose tag list holds the same name twice
(`["a", "a"]`) runs the attach loop once per occurrence: the serialized
item carries the name twice while exactly one `Tag` row with that
(user, name) exists, and the association table holds two identical
entries. -/
theorem duplicate_tags_attached_per_occurrence :
    (serialize_knowledge_item
        (create_knowledge_item db0 0 "note" none none "text" ["a", "a"] [] none).1
        (create_knowledge_item db0 0 "note" none none "text" ["a", "a"] [] none).2).tags
      = ["a", "a"]
    ∧ countUserTags (create_knowledge_item db0 0 "note" none none "text" ["a", "a"] [] none).1
        0 "a" = 1
    ∧ (create_knowledge_item db0 0 "note" none none "text" ["a", "a"] [] none).1.itemTags
      = [(0, 1), (0, 1)] := by
  decide

/-- C9: creating a knowledge item with tags `["a", "b"]` and then fetching
it through the item endpoint returns exactly the tag set `{"a", "b"}` —
the serialized list is `["a", "b"]`, so membership is name-for-name — for
every well-formed starting store, owner, field values and enrichment
outcome. -/
theorem create_fetch_tag_roundtrip (db : DB) (u : Nat) (title : String)
    (s c : Option String) (ty : String) (md : List (String × String))
    (enrich : Option String) (hwf : DBWF db) :
    ∃ st : SerializedItem,
      get_knowledge_item (create_knowledge_item db u title s c ty ["a", "b"] md enrich).1
          u (create_knowledge_item db u title s c ty ["a", "b"] md enrich).2.id
        = Except.ok st
      ∧ st.tags = ["a", "b"]
      ∧ (∀ x, x ∈ st.tags ↔ (x = "a" ∨ x = "b")) := by
  obtain ⟨st, h1, h2⟩ := get_created db
    { id := db.nextId
      userId := u
      title := title
      summary := backfillSummary s c enrich
      content := c
      type := ty
      fileUrl := none
      fileName := none
      fileSize := none
      mimeType := none
      objectPath := none
      itemMetadata := md
      isProcessed := true
      processingError := none
      createdAt := db.clock }
    ["a", "b"] u hwf rfl rfl
  refine ⟨st, h1, h2, fun x => ?_⟩
  rw [h2]
  simp

/-- C9 witness: the concrete round-trip on the empty store. -/
theorem create_fetch_tag_roundtrip_witness :
    DBWF db0
    ∧ ∃ st : SerializedItem,
        get_knowledge_item (create_knowledge_item db0 0 "t" none none "text" ["a", "b"] [] none).1
            0 (create_knowledge_item db0 0 "t" none none "text" ["a", "b"] [] none).2.id
          = Except.ok st
        ∧ st.tags = ["a", "b"]
        ∧ (∀ x, x ∈ st.tags ↔ (x = "a" ∨ x = "b")) :=
  ⟨by decide, create_fetch_tag_roundtrip db0 0 "t" none none "text" [] none (by decide)⟩

/-- C2: every chat request appends exactly two messages to the
`chat_messages` table — first the user turn, then the assistant turn — in
the same conversation, with the user turn's creation time strictly before
the assistant turn's, for every generation outcome (`gen` ranges over
success and failure) and whether or not the knowledge base is used. -/
theorem chat_user_turn_precedes_assistant (db : DB) (u : Nat) (m : String)
    (cid : Option Nat) (kb : Bool) (gen : String → Option String)
    (nowStr : String) :
    ∃ mu ma : ChatMessage,
      (chat db u m cid kb gen nowStr).1.messages = db.messages ++ [mu, ma]
      ∧ mu.role = "user" ∧ ma.role = "assistant"
      ∧ mu.conversationId = ma.conversationId
      ∧ mu.createdAt < ma.createdAt := by
  rcases hr : resolveConversation db u cid nowStr with ⟨db1, conv⟩
  have hmsg : db1.messages = db.messages := by
    have h := resolveConversation_messages db u cid nowStr
    rw [hr] at h
    exact h
  refine ⟨⟨db1.nextId, conv.id, "user", m, none, db1.clock⟩,
          ⟨db1.nextId + 1, conv.id, "assistant",
            chatReply gen (chatPrompt (chatContext db1.items u m kb) m),
            some (chatSources db1.items u m kb, "ConversationAgent"),
            db1.clock + 1⟩,
          ?_, rfl, rfl, rfl, Nat.lt_succ_self _⟩
  simp only [chat, hr, hmsg]
  rw [List.append_assoc]
  rfl

/-- C6: for every chat request with `use_knowledge_base = true`, the
returned `sources` list has at most 5 entries and each entry corresponds,
field by field, to a stored `KnowledgeItem` owned by the requesting user. -/
theorem chat_kb_sources_bounded_owned (db : DB) (u : Nat) (m : String)
    (cid : Option Nat) (gen : String → Option String) (nowStr : String) :
    (chat db u m cid true gen nowStr).2.sources.length ≤ 5
    ∧ ∀ s ∈ (chat db u m cid true gen nowStr).2.sources,
        ∃ i, i ∈ db.items ∧ i.userId = u ∧ i.id = s.id ∧ i.title = s.title
          ∧ i.summary = s.summary ∧ i.type = s.type := by
  have hs : (chat db u m cid true gen nowStr).2.sources
      = (searchKnowledge db.items u m).map mkSource := by
    rcases hr : resolveConversation db u cid nowStr with ⟨db1, conv⟩
    have hi : db1.items = db.items := by
      have h := resolveConversation_items db u cid nowStr
      rw [hr] at h
      exact h
    simp [chat, hr, hi, chatSources]
  rw [hs]
  constructor
  · simp only [searchKnowledge, List.length_map]
    exact List.length_take_le _ _
  · intro s hsm
    rw [List.mem_map] at hsm
    obtain ⟨i, hi, rfl⟩ := hsm
    simp only [searchKnowledge] at hi
    have h2 := List.mem_of_mem_take hi
    have h3 := List.mem_filter.mp h2
    refine ⟨i, h3.1, ?_, rfl, rfl, rfl, rfl⟩
    have h4 := h3.2
    simp only [Bool.and_eq_true, beq_iff_eq] at h4
    exact h4.1

/-- C6 witness: a knowledge-base-grounded chat on the fixture store. -/
theorem chat_kb_sources_bounded_owned_witness :
    (chat dbW 1 "secret" none true (fun _ => none) "now").2.sources.length ≤ 5 :=
  (chat_kb_sources_bounded_owned dbW 1 "secret" none (fun _ => none) "now").1

/-- C7: for every chat request with `use_knowledge_base = false`, the
returned `sources` list is empty and the whole response — assistant text
included — is independent of the contents of the requester's knowledge-item
store: two stores differing only in stored items produce identical
responses under the same generation oracle. -/
theorem chat_no_kb_source_independence (db : DB)
    (its1 its2 : List KnowledgeItem) (u : Nat) (m : String)
    (cid : Option Nat) (gen : String → Option String) (nowStr : String) :
    (chat { db with items := its1 } u m cid false gen nowStr).2
      = (chat { db with items := its2 } u m cid false gen nowStr).2
    ∧ (chat { db with items := its1 } u m cid false gen nowStr).2.sources = [] := by
  constructor
  · rcases cid with _ | cN
    · rfl
    · rcases h : db.conversations.find? (fun cv => cv.id == cN && cv.userId == u) with _ | cv <;>
        simp [chat, resolveConversation, createConversation, h, chatContext, chatSources]
  · rfl

end KV
